import Mathlib

/-!
Shallow embedding of the ORBIT orchestration core (orbit_tools.py,
orbit_agent.py, orbit_mcp_server.py) and proofs of the spec claims about it.
Remote calls (HTTP transport) are modelled by explicit environments that
supply, per call, either a transport fault message (the string rendering of
the raised exception) or an HTTP response; wall-clock timestamps and UUIDs
are supplied as parameters or elided where no claim depends on them.
-/

namespace Orbit

/-- ToolResult (orbit_tools.py lines 19-35): standard result format for all
tools.  `data` and `metadata` payload types vary per operation, so the
structure is generic; the `timestamp` stamp from the ambient clock is elided
(no claim depends on it). -/
structure ToolResult (α μ : Type) where
  success : Bool
  data : Option α
  error : Option String
  metadata : μ
deriving DecidableEq

/-- The envelope invariant of spec section 3: failure carries a non-empty
error string, success carries no error. -/
def envOk {α μ : Type} (r : ToolResult α μ) : Prop :=
  (r.success = true → r.error = none) ∧
  (r.success = false → ∃ e, r.error = some e ∧ e ≠ "")

/-- Outcome of one HTTP round-trip of `DatabaseTool._execute` (the
`self.client.post` call plus `response.json()`): either the transport layer
raises (the string is what `str(exception)` renders to), or a response with a
status code, body text and parsed JSON rows arrives. Rows are kept opaque as
strings. -/
inductive DbAttemptOutcome where
  | transportError (msg : String)
  | httpResponse (status : Nat) (text : String) (body : List String)
deriving DecidableEq

/-- orbit_tools.py lines 87-90: a non-200 status raises
`Database error: {status} - {text}`, which the enclosing handler catches;
otherwise the parsed body is the data. -/
def attemptResult : DbAttemptOutcome → Except String (List String)
  | .transportError m => .error m
  | .httpResponse s t b =>
      if s ≠ 200 then .error ("Database error: " ++ toString s ++ " - " ++ t)
      else .ok b

/-- orbit_tools.py line 96: queries longer than 100 characters are truncated
in metadata. -/
def truncQuery (q : String) : String :=
  if q.length > 100 then q.take 100 ++ "..." else q

/-- Metadata dict of `DatabaseTool._execute` results (lines 95-101 and
115-118).  `row_count` is present only in the success dict, hence optional;
`duration_seconds` (wall clock) is elided. -/
structure DbMeta where
  query : String
  row_count : Option Nat
  attempts : Nat
  operation_type : String
deriving DecidableEq

/-- A run of `DatabaseTool._execute`: the returned envelope plus the sequence
of backoff sleeps performed (arguments of `asyncio.sleep`, line 110). -/
structure DbRun where
  result : ToolResult (List String) DbMeta
  sleeps : List Nat
deriving DecidableEq

namespace DatabaseTool

/-- The retry loop of `DatabaseTool._execute` (orbit_tools.py lines 69-120),
unrolled on the number of remaining loop iterations
(`limit - attempts` where `limit = max_retries if retry_on_error else 1`).
On exhaustion the failure envelope carries `str(last_error)`
(Python renders `None` as "None" in the impossible zero-iteration case). -/
def executeLoop (max_retries : Nat) (env : Nat → DbAttemptOutcome) (query : String)
    (retry_on_error : Bool) (operation_type : String) :
    Nat → Nat → Option String → List Nat → DbRun
  | 0, attempts, last_error, sleeps =>
      ⟨{ success := false, data := none,
         error := some (match last_error with | some m => m | none => "None"),
         metadata := { query := truncQuery query, row_count := none,
                       attempts := attempts, operation_type := operation_type } },
       sleeps.reverse⟩
  | remaining + 1, attempts, _last_error, sleeps =>
      match attemptResult (env attempts) with
      | .ok d =>
          ⟨{ success := true, data := some d, error := none,
             metadata := { query := truncQuery query, row_count := some d.length,
                           attempts := attempts + 1, operation_type := operation_type } },
           sleeps.reverse⟩
      | .error m =>
          let sleeps' :=
            if attempts + 1 < max_retries ∧ retry_on_error then
              2 ^ (attempts + 1) :: sleeps
            else sleeps
          executeLoop max_retries env query retry_on_error operation_type
            remaining (attempts + 1) (some m) sleeps'

/-- `DatabaseTool._execute` (orbit_tools.py lines 66-120): the while loop
runs while `attempts < (max_retries if retry_on_error else 1)`. -/
def execute (max_retries : Nat) (env : Nat → DbAttemptOutcome) (query : String)
    (retry_on_error : Bool) (operation_type : String) : DbRun :=
  executeLoop max_retries env query retry_on_error operation_type
    (if retry_on_error then max_retries else 1) 0 none []

end DatabaseTool

/-- Outcome of one `self._execute(...)` call as observed by
`execute_transaction`.  `_execute` catches every exception internally and
always returns a ToolResult, so a call either yields a success result with
row data or a failure result carrying an error string (it never raises). -/
inductive CallOutcome where
  | ok (d : List String)
  | fail (e : String)
deriving DecidableEq

/-- Whether a `_execute` call outcome is a success result. -/
def CallOutcome.isOk : CallOutcome → Bool
  | .ok _ => true
  | .fail _ => false

/-- One element of the `queries` list passed to `execute_transaction`
(orbit_tools.py line 133): a dict that may carry the statement under the
key `sql` or the key `query`, plus parameters.  `some ""` models a key
present with an empty string (falsy in Python). -/
structure TxQuery where
  sql : Option String
  query : Option String
  params : List String
deriving DecidableEq

/-- `query_data.get('sql') or query_data.get('query')` (line 133): Python
`or` keeps the first operand when it is truthy (a non-empty string) and
otherwise evaluates to the second operand. -/
def effQuery (q : TxQuery) : Option String :=
  match q.sql with
  | some s => if s = "" then q.query else some s
  | none => q.query

/-- One invocation of `self._execute` recorded during a transaction:
the query string passed and the `operation_type` argument. -/
structure TxCall where
  query : Option String
  operation_type : String
deriving DecidableEq

/-- The BEGIN marker call (orbit_tools.py line 129). -/
def beginCall : TxCall := ⟨some "BEGIN", "transaction_begin"⟩

/-- The ROLLBACK marker call (lines 140 and 163). -/
def rollbackCall : TxCall := ⟨some "ROLLBACK", "transaction_rollback"⟩

/-- The COMMIT marker call (line 146). -/
def commitCall : TxCall := ⟨some "COMMIT", "transaction_commit"⟩

/-- A per-step `_execute` call (line 136, default operation type). -/
def stepCall (q : TxQuery) : TxCall := ⟨effQuery q, "query"⟩

/-- Metadata dict of `execute_transaction` results: `queries_executed` is
present only in the success dict (line 155), `queries_attempted` only in the
failure dict (line 172); `transaction_id` (UUID) and `duration_seconds`
(wall clock) are elided. -/
structure TxMeta where
  queries_executed : Option Nat
  queries_attempted : Option Nat
deriving DecidableEq

/-- A run of `execute_transaction`: the returned envelope (data is the list
of per-step result dicts) and the ordered list of `_execute` invocations. -/
structure TxRun where
  result : ToolResult (List (List String)) TxMeta
  calls : List TxCall
deriving DecidableEq

namespace DatabaseTool

/-- The `for i, query_data in enumerate(queries)` loop of
`execute_transaction` (orbit_tools.py lines 132-146), with the surrounding
try/except.  `env n` is the result of the n-th `_execute` call of the run
(call 0 is BEGIN, so step i consumes call i+1).  On a failing step the code
issues ROLLBACK, raises `Query {i+1} failed: {error}`, and the outer handler
issues ROLLBACK once more (line 163, results of both ignored) before
returning the failure envelope; after the loop the COMMIT result (line 146)
is ignored and a success envelope is returned. -/
def txLoop (env : Nat → CallOutcome) (total : Nat) :
    List TxQuery → Nat → List (List String) → List TxCall → TxRun
  | [], _, acc, calls =>
      { result := { success := true, data := some acc.reverse, error := none,
                    metadata := { queries_executed := some total,
                                  queries_attempted := none } },
        calls := (commitCall :: calls).reverse }
  | q :: rest, i, acc, calls =>
      match env (i + 1) with
      | .ok d => txLoop env total rest (i + 1) (d :: acc) (stepCall q :: calls)
      | .fail e =>
          { result := { success := false, data := none,
                        error := some ("Query " ++ toString (i + 1) ++ " failed: " ++ e),
                        metadata := { queries_executed := none,
                                      queries_attempted := some total } },
            calls := (rollbackCall :: rollbackCall :: stepCall q :: calls).reverse }

/-- `DatabaseTool.execute_transaction` (orbit_tools.py lines 122-174). -/
def execute_transaction (env : Nat → CallOutcome) (queries : List TxQuery) : TxRun :=
  txLoop env queries.length queries 0 [] [beginCall]

end DatabaseTool

/-- Todo item dict created by `ProgressTrackerTool._add_todo`
(orbit_tools.py lines 639-645).  `content` and `status` may be Python `None`
when the caller omitted them, hence Option. -/
structure Todo where
  id : Nat
  content : Option String
  status : Option String
  created_at : String
  updated_at : String
deriving DecidableEq

/-- The `workflow_stats` dict of ProgressTrackerTool (orbit_tools.py
lines 607-612). -/
structure WorkflowStats where
  started_at : Option String
  orders_processed : Nat
  images_processed : Nat
  errors : Nat
deriving DecidableEq

/-- Initial `workflow_stats` (lines 607-612 and the reset at 715-720). -/
def initWorkflowStats : WorkflowStats :=
  { started_at := none, orders_processed := 0, images_processed := 0, errors := 0 }

/-- Mutable state of a ProgressTrackerTool instance (lines 605-612). -/
structure TrackerState where
  todos : List Todo
  next_id : Nat
  workflow_stats : WorkflowStats
deriving DecidableEq

/-- Fresh ProgressTrackerTool state (constructor, lines 605-612). -/
def initTrackerState : TrackerState :=
  { todos := [], next_id := 1, workflow_stats := initWorkflowStats }

/-- A partial update mapping passed to `_update_stats`: `none` models an
absent key; for `started_at`, `some none` models the key present with value
`None`.  Arbitrary extra keys beyond the four standard counters are not
modelled (no claim involves them). -/
structure StatUpdate where
  started_at : Option (Option String)
  orders_processed : Option Nat
  images_processed : Option Nat
  errors : Option Nat
deriving DecidableEq

/-- Python truthiness of an optional string value: `None` and the empty
string are falsy. -/
def pyFalsyStr : Option String → Bool
  | none => true
  | some s => s = ""

/-- Metadata dict `{"total_todos": len(self.todos)}` used by the todo
operations (lines 653 and 669). -/
structure TodoMeta where
  total_todos : Nat
deriving DecidableEq

namespace ProgressTrackerTool

/-- `ProgressTrackerTool._add_todo` (orbit_tools.py lines 637-654); `now` is
the ambient `datetime.utcnow().isoformat()`.  Returns the envelope and the
updated state. -/
def add_todo (now : String) (st : TrackerState) (content : Option String)
    (status : Option String) : ToolResult Todo TodoMeta × TrackerState :=
  let todo : Todo := { id := st.next_id, content := content, status := status,
                       created_at := now, updated_at := now }
  let st' : TrackerState := { st with todos := st.todos ++ [todo], next_id := st.next_id + 1 }
  ({ success := true, data := some todo, error := none,
     metadata := { total_todos := st'.todos.length } }, st')

/-- In-place mutation of the first todo whose id matches (the dict found by
`next(...)` on line 658 is mutated on lines 663-664). -/
def setTodoStatus (now : String) (todo_id : Nat) (status : Option String) :
    List Todo → List Todo
  | [] => []
  | t :: ts =>
      if t.id = todo_id then { t with status := status, updated_at := now } :: ts
      else t :: setTodoStatus now todo_id status ts

/-- `ProgressTrackerTool._update_todo` (orbit_tools.py lines 656-670).
`next((t for t in self.todos if t["id"] == todo_id), None)` yields the first
match or `None`; `if not todo` then takes the failure branch (a found todo
dict is never empty, hence never falsy). -/
def update_todo (now : String) (st : TrackerState) (todo_id : Nat)
    (status : Option String) : ToolResult Todo TodoMeta × TrackerState :=
  match st.todos.find? (fun t => t.id = todo_id) with
  | none =>
      ({ success := false, data := none,
         error := some ("Todo " ++ toString todo_id ++ " not found"),
         metadata := { total_todos := st.todos.length } }, st)
  | some t =>
      let t' : Todo := { t with status := status, updated_at := now }
      let st' : TrackerState := { st with todos := setTodoStatus now todo_id status st.todos }
      ({ success := true, data := some t', error := none,
         metadata := { total_todos := st'.todos.length } }, st')

/-- `_get_status_counts()[s]` with default 0 (orbit_tools.py lines 724-730):
the number of todos whose status equals `s`. -/
def statusCount (st : TrackerState) (s : String) : Nat :=
  (st.todos.filter (fun t => t.status = some s)).length

/-- Python `round` on an exact value: round half to even
(`_get_progress` rounds the percentage to 2 digits, line 693). -/
def roundHalfEven (x : ℚ) : ℤ :=
  let f := ⌊x⌋
  if x - f < 1 / 2 then f
  else if 1 / 2 < x - f then f + 1
  else if f % 2 = 0 then f else f + 1

/-- `round(x, 2)`: round to two decimal places. -/
def roundTo2 (x : ℚ) : ℚ := (roundHalfEven (x * 100) : ℚ) / 100

/-- The progress dict built by `_get_progress` (orbit_tools.py
lines 688-695). -/
structure ProgressData where
  total_todos : Nat
  completed : Nat
  in_progress : Nat
  pending : Nat
  percent_complete : ℚ
  workflow_stats : WorkflowStats
deriving DecidableEq

/-- `ProgressTrackerTool._get_progress` (orbit_tools.py lines 683-697). -/
def get_progress (st : TrackerState) : ToolResult ProgressData Unit :=
  let total := st.todos.length
  { success := true,
    data := some
      { total_todos := total,
        completed := statusCount st "completed",
        in_progress := statusCount st "in_progress",
        pending := statusCount st "pending",
        percent_complete :=
          if total > 0 then roundTo2 ((statusCount st "completed" : ℚ) / total * 100)
          else 0,
        workflow_stats := st.workflow_stats },
    error := none, metadata := () }

/-- `ProgressTrackerTool._update_stats` (orbit_tools.py lines 699-709):
first `self.workflow_stats.update(updates)` merges the supplied keys, then
`started_at` is stamped with the current time when the key `started_at` was
in the update mapping and the merged value is falsy.  Returns the envelope
(data is the merged stats dict) and the new stats. -/
def update_stats (now : String) (updates : StatUpdate) (s : WorkflowStats) :
    ToolResult WorkflowStats Unit × WorkflowStats :=
  let merged : WorkflowStats :=
    { started_at := updates.started_at.getD s.started_at,
      orders_processed := updates.orders_processed.getD s.orders_processed,
      images_processed := updates.images_processed.getD s.images_processed,
      errors := updates.errors.getD s.errors }
  let final :=
    if updates.started_at.isSome && pyFalsyStr merged.started_at then
      { merged with started_at := some now }
    else merged
  ({ success := true, data := some final, error := none, metadata := () }, final)

end ProgressTrackerTool

namespace ORBITAgent

/-- orbit_agent.py lines 275, 285, 301, 315:
`"healthy" if result.success else "unhealthy"`. -/
def component_status (success : Bool) : String :=
  if success then "healthy" else "unhealthy"

/-- The overall-health reduction of `ORBITAgent.health_check`
(orbit_agent.py lines 318-327) over the list of component statuses. -/
def overall_health (component_statuses : List String) : String :=
  if component_statuses.all (fun s => s == "healthy") then "healthy"
  else if component_statuses.any (fun s => s == "healthy") then "degraded"
  else "unhealthy"

end ORBITAgent

namespace Mcp

/-- orbit_mcp_server.py lines 392 and 400:
`"healthy" if result["success"] else "unhealthy"`. -/
def component_status (success : Bool) : String :=
  if success then "healthy" else "unhealthy"

/-- The overall-health reduction of `workflow_health_check`
(orbit_mcp_server.py lines 413-420) over the list of component statuses. -/
def overall_health (component_statuses : List String) : String :=
  if component_statuses.all (fun s => s == "healthy") then "healthy"
  else if component_statuses.any (fun s => s == "healthy") then "degraded"
  else "unhealthy"

end Mcp

/-- ExecutionStats (orbit_agent.py lines 95-111).  Instants are modelled as
rational time coordinates (seconds); `datetime` subtraction becomes rational
subtraction.  All derived fields default to 0 as in the dataclass. -/
structure ExecutionStats where
  started_at : ℚ
  ended_at : Option ℚ
  orders_processed : Nat
  images_processed : Nat
  errors_encountered : Nat
  phases_completed : List String
  total_duration_seconds : ℚ
  average_order_time : ℚ
  average_image_time : ℚ
  success_rate : ℚ
deriving DecidableEq

/-- A fresh `ExecutionStats(started_at=...)` with dataclass defaults
(orbit_agent.py lines 98-107). -/
def ExecutionStats.fresh (t : ℚ) : ExecutionStats :=
  { started_at := t, ended_at := none, orders_processed := 0,
    images_processed := 0, errors_encountered := 0, phases_completed := [],
    total_duration_seconds := 0, average_order_time := 0,
    average_image_time := 0, success_rate := 0 }

/-- `ExecutionStats.update_completion` (orbit_agent.py lines 113-126):
everything is guarded by `if self.ended_at:`; duration, the two averages
(each guarded by a positive count) and the success rate
(guarded by a positive total) are written in order. -/
def ExecutionStats.update_completion (s : ExecutionStats) : ExecutionStats :=
  match s.ended_at with
  | none => s
  | some te =>
      let dur := te - s.started_at
      let s1 := { s with total_duration_seconds := dur }
      let s2 :=
        if s.orders_processed > 0 then
          { s1 with average_order_time := dur / s.orders_processed }
        else s1
      let s3 :=
        if s.images_processed > 0 then
          { s2 with average_image_time := dur / s.images_processed }
        else s2
      let total := s.orders_processed + s.images_processed
      if total > 0 then
        { s3 with success_rate := ((total : ℚ) - s.errors_encountered) / total * 100 }
      else s3

/-- What `self.agent.run(...)` inside `execute_workflow` does: return a
result, exceed the wall-clock timeout, or raise. -/
inductive AgentOutcome where
  | ok (r : String)
  | timeout
  | raised (msg : String)
deriving DecidableEq

/-- Environment of one `execute_workflow` run: the overall health computed
by `health_check`, the `pending_orders_count` of the context built by
`prepare_workflow_context` (both methods catch their own exceptions), and
the agent outcome. -/
structure WorkflowEnv where
  health_overall : String
  pending_count : Nat
  agent : AgentOutcome
deriving DecidableEq

/-- The dict returned by `execute_workflow`, restricted to the fields the
claims mention, plus whether the phase engine (`self.agent.run`) was ever
invoked. -/
structure WorkflowRunResult where
  success : Bool
  message : Option String
  error : Option String
  agent_invoked : Bool
deriving DecidableEq

namespace ORBITAgent

/-- Control flow of `ORBITAgent.execute_workflow` (orbit_agent.py
lines 387-467): an unhealthy health check raises and is converted by the
outer handler into a failure dict (its error text, the repr of the health
dict, is elided); with no pending orders a success dict with the no-work
message is returned before the agent ever runs; otherwise the agent runs
and its outcome decides the result (timeout raises, caught by the outer
handler). -/
def execute_workflow (env : WorkflowEnv) : WorkflowRunResult :=
  if env.health_overall = "unhealthy" then
    { success := false, message := none,
      error := some "System health check failed", agent_invoked := false }
  else if env.pending_count = 0 then
    { success := true, message := some "No pending orders to process",
      error := none, agent_invoked := false }
  else
    match env.agent with
    | .ok _ =>
        { success := true, message := some "Workflow completed successfully",
          error := none, agent_invoked := true }
    | .timeout =>
        { success := false, message := none,
          error := some "Workflow timed out", agent_invoked := true }
    | .raised m =>
        { success := false, message := none, error := some m,
          agent_invoked := true }

end ORBITAgent

/-- Metadata dict of a successful `database_execute_sql` MCP result
(orbit_mcp_server.py lines 87-91). -/
structure McpDbMeta where
  query : String
  row_count : Nat
  params_count : Nat
deriving DecidableEq

namespace Mcp

/-- `create_tool_result` (orbit_mcp_server.py lines 42-51); the ambient
timestamp is elided as in `ToolResult`.  Failure results pass no metadata
(`metadata or {}` yields the empty dict), hence the Option. -/
def create_tool_result {α μ : Type} (success : Bool) (data : Option α)
    (error : Option String) (metadata : Option μ) : ToolResult α (Option μ) :=
  { success := success, data := data, error := error, metadata := metadata }

/-- `database_execute_sql` (orbit_mcp_server.py lines 55-100): a single
HTTP round-trip; a non-200 status yields a failure with a
`Database error:` message, a transport fault yields a failure with a
`SQL execution failed:` message, success carries the rows and metadata. -/
def database_execute_sql (outcome : DbAttemptOutcome) (query : String)
    (params : List String) : ToolResult (List String) (Option McpDbMeta) :=
  match outcome with
  | .transportError m =>
      create_tool_result false none (some ("SQL execution failed: " ++ m)) none
  | .httpResponse s t b =>
      if s ≠ 200 then
        create_tool_result false none
          (some ("Database error: " ++ toString s ++ " - " ++ t)) none
      else
        create_tool_result true (some b) none
          (some { query := truncQuery query, row_count := b.length,
                  params_count := params.length })

end Mcp

/-! Helper lemmas shared by several claim proofs. -/

/-- A string with a non-empty left part is non-empty. -/
theorem prefixed_ne_empty (s t : String) (hs : s.length ≠ 0) : s ++ t ≠ "" := by
  intro h
  have hlen := congrArg String.length h
  simp [String.length_append] at hlen
  exact hs hlen.1

/-! ## C3: retry with exponential backoff -/

/--
C3.  With `max_retries = 3` and `retry_on_error = true`,
`DatabaseTool._execute` on an operation that fails on its first two attempts
and succeeds on the third returns a success envelope with `attempts = 3` in
its metadata, having slept 2 then 4 time units between attempts; on an
operation failing all three attempts it returns a failure envelope carrying
the last error with `attempts = 3` (and the same two backoff sleeps).
-/
theorem retry_backoff_behavior (env1 env2 : Nat → DbAttemptOutcome)
    (q ot : String) (f0 f1 e0 e1 e2 : String) (d : List String)
    (h0 : attemptResult (env1 0) = .error f0)
    (h1 : attemptResult (env1 1) = .error f1)
    (h2 : attemptResult (env1 2) = .ok d)
    (g0 : attemptResult (env2 0) = .error e0)
    (g1 : attemptResult (env2 1) = .error e1)
    (g2 : attemptResult (env2 2) = .error e2) :
    ((DatabaseTool.execute 3 env1 q true ot).result.success = true ∧
     (DatabaseTool.execute 3 env1 q true ot).result.metadata.attempts = 3 ∧
     (DatabaseTool.execute 3 env1 q true ot).sleeps = [2, 4]) ∧
    ((DatabaseTool.execute 3 env2 q true ot).result.success = false ∧
     (DatabaseTool.execute 3 env2 q true ot).result.error = some e2 ∧
     (DatabaseTool.execute 3 env2 q true ot).result.metadata.attempts = 3 ∧
     (DatabaseTool.execute 3 env2 q true ot).sleeps = [2, 4]) := by
  constructor
  · simp [DatabaseTool.execute, DatabaseTool.executeLoop, h0, h1, h2]
  · simp [DatabaseTool.execute, DatabaseTool.executeLoop, g0, g1, g2]

/-- Witness for C3 at a concrete environment: two 500 responses then a
200 response, and a permanently 500 environment. -/
theorem retry_backoff_behavior_witness :
    ((DatabaseTool.execute 3
        (fun n => if n ≤ 1 then .httpResponse 500 "ise" [] else .httpResponse 200 "" ["r"])
        "SELECT 1" true "query").result.success = true ∧
     (DatabaseTool.execute 3
        (fun n => if n ≤ 1 then .httpResponse 500 "ise" [] else .httpResponse 200 "" ["r"])
        "SELECT 1" true "query").result.metadata.attempts = 3 ∧
     (DatabaseTool.execute 3
        (fun n => if n ≤ 1 then .httpResponse 500 "ise" [] else .httpResponse 200 "" ["r"])
        "SELECT 1" true "query").sleeps = [2, 4]) ∧
    ((DatabaseTool.execute 3 (fun _ => .transportError "down") "SELECT 1" true "query").result.success = false ∧
     (DatabaseTool.execute 3 (fun _ => .transportError "down") "SELECT 1" true "query").result.error = some "down" ∧
     (DatabaseTool.execute 3 (fun _ => .transportError "down") "SELECT 1" true "query").result.metadata.attempts = 3 ∧
     (DatabaseTool.execute 3 (fun _ => .transportError "down") "SELECT 1" true "query").sleeps = [2, 4]) :=
  retry_backoff_behavior _ _ "SELECT 1" "query"
    ("Database error: 500 - ise") ("Database error: 500 - ise") "down" "down" "down" ["r"]
    rfl rfl rfl rfl rfl rfl

/-! ## C1 and C2: the transaction coordinator -/

/-- Success of the transaction loop depends exactly on the step outcomes:
the run reports success iff every remaining step call succeeds (marker call
results are ignored by the code). -/
theorem txLoop_success_iff (env : Nat → CallOutcome) (total : Nat) :
    ∀ (qs : List TxQuery) (i : Nat) (acc : List (List String)) (calls : List TxCall),
      (DatabaseTool.txLoop env total qs i acc calls).result.success = true ↔
        ∀ j < qs.length, (env (i + 1 + j)).isOk = true := by
  intro qs
  induction qs with
  | nil =>
    intro i acc calls
    simp [DatabaseTool.txLoop]
  | cons q rest ih =>
    intro i acc calls
    rw [DatabaseTool.txLoop]
    cases h : env (i + 1) with
    | ok d =>
      rw [ih]
      constructor
      · intro hall j hj
        cases j with
        | zero =>
          simp [CallOutcome.isOk, h]
        | succ j' =>
          have hidx : i + 1 + (j' + 1) = i + 1 + 1 + j' := by omega
          rw [hidx]
          exact hall j' (by simpa using hj)
      · intro hall j hj
        have hidx : i + 1 + 1 + j = i + 1 + (j + 1) := by omega
        rw [hidx]
        exact hall (j + 1) (by simpa using hj)
    | fail e =>
      simp only [List.length_cons]
      constructor
      · intro hfalse
        exact absurd hfalse (by simp)
      · intro hall
        have h0 := hall 0 (by omega)
        rw [Nat.add_zero, h] at h0
        exact absurd h0 (by simp [CallOutcome.isOk])

/--
C1 counterexample.  A one-statement transaction in which BEGIN and the step
succeed while the COMMIT marker operation (call index 2) fails still
returns a success envelope: `execute_transaction` ignores the result of the
COMMIT call, so the claim that success is only reported when the COMMIT
marker succeeded is false.
-/
theorem execute_transaction_commit_ignored_counterexample :
    ((fun n => if n = 2 then CallOutcome.fail "commit failed" else CallOutcome.ok []) 2).isOk
      = false ∧
    (DatabaseTool.execute_transaction
      (fun n => if n = 2 then CallOutcome.fail "commit failed" else CallOutcome.ok [])
      [⟨some "INSERT INTO t VALUES (1)", none, []⟩]).result.success = true :=
  ⟨rfl, rfl⟩

/--
C1 amended.  For every sequence of queries, `execute_transaction` returns a
success envelope iff every step call succeeded; the results of the BEGIN
and COMMIT marker operations are ignored, so a failing COMMIT still yields
a success envelope (the original claim that a failing COMMIT forces a
failure envelope does not hold).
-/
theorem execute_transaction_success_iff_steps (env : Nat → CallOutcome)
    (queries : List TxQuery) :
    (DatabaseTool.execute_transaction env queries).result.success = true ↔
      ∀ i < queries.length, (env (i + 1)).isOk = true := by
  rw [DatabaseTool.execute_transaction, txLoop_success_iff]
  constructor
  · intro h i hi
    have := h i hi
    simpa [Nat.add_comm] using this
  · intro h i hi
    have := h i hi
    simpa [Nat.add_comm] using this

/-- Witness for C1 amended: with both step calls succeeding and the COMMIT
call failing, the two-statement transaction reports success. -/
theorem execute_transaction_success_iff_steps_witness :
    (∀ i < ([⟨some "Q1", none, []⟩, ⟨some "Q2", none, []⟩] : List TxQuery).length,
      (((fun n => if n = 3 then CallOutcome.fail "commit failed" else CallOutcome.ok []) : Nat → CallOutcome) (i + 1)).isOk = true) ∧
    (DatabaseTool.execute_transaction
      (fun n => if n = 3 then CallOutcome.fail "commit failed" else CallOutcome.ok [])
      [⟨some "Q1", none, []⟩, ⟨some "Q2", none, []⟩]).result.success = true :=
  ⟨by decide,
    (execute_transaction_success_iff_steps
      (fun n => if n = 3 then CallOutcome.fail "commit failed" else CallOutcome.ok [])
      [⟨some "Q1", none, []⟩, ⟨some "Q2", none, []⟩]).mpr (by decide)⟩

/--
C2 counterexample.  For the two-operation transaction in which the first
step succeeds and the second fails, the ROLLBACK marker operation is
invoked twice (once in the loop on line 140 and once more by the ensure-
rollback of the exception handler on line 163), so the claim that it is
invoked exactly once is false.
-/
theorem execute_transaction_rollback_twice_counterexample :
    ((DatabaseTool.execute_transaction
        (fun n => if n = 2 then CallOutcome.fail "boom" else CallOutcome.ok [])
        [⟨some "Q1", none, []⟩, ⟨some "Q2", none, []⟩]).calls.filter
      (fun c => c.operation_type == "transaction_rollback")).length = 2 ∧
    ¬ ((DatabaseTool.execute_transaction
        (fun n => if n = 2 then CallOutcome.fail "boom" else CallOutcome.ok [])
        [⟨some "Q1", none, []⟩, ⟨some "Q2", none, []⟩]).calls.filter
      (fun c => c.operation_type == "transaction_rollback")).length = 1 ∧
    (DatabaseTool.execute_transaction
        (fun n => if n = 2 then CallOutcome.fail "boom" else CallOutcome.ok [])
        [⟨some "Q1", none, []⟩, ⟨some "Q2", none, []⟩]).result.success = false := by
  refine ⟨?_, ?_, ?_⟩ <;> decide

/--
C2 amended.  For a two-operation transaction whose first step succeeds and
whose second step fails, `execute_transaction` returns a failure envelope
whose error names the failing step index and its error, invokes the
ROLLBACK marker operation exactly twice (not once: the inline rollback plus
the ensure-rollback of the exception handler), and never invokes a third
non-marker operation; the exact call sequence is
BEGIN, step 1, step 2, ROLLBACK, ROLLBACK.
-/
theorem execute_transaction_two_step_failure (env : Nat → CallOutcome)
    (q1 q2 : TxQuery) (d1 : List String) (e : String)
    (h1 : env 1 = .ok d1) (h2 : env 2 = .fail e) :
    (DatabaseTool.execute_transaction env [q1, q2]).result.success = false ∧
    (DatabaseTool.execute_transaction env [q1, q2]).result.error =
      some ("Query 2 failed: " ++ e) ∧
    (DatabaseTool.execute_transaction env [q1, q2]).calls =
      [beginCall, stepCall q1, stepCall q2, rollbackCall, rollbackCall] ∧
    ((DatabaseTool.execute_transaction env [q1, q2]).calls.filter
      (fun c => c.operation_type == "transaction_rollback")).length = 2 ∧
    ((DatabaseTool.execute_transaction env [q1, q2]).calls.filter
      (fun c => c.operation_type == "query")).length = 2 := by
  have hrun : DatabaseTool.execute_transaction env [q1, q2] =
      { result := { success := false, data := none,
                    error := some ("Query 2 failed: " ++ e),
                    metadata := { queries_executed := none, queries_attempted := some 2 } },
        calls := [beginCall, stepCall q1, stepCall q2, rollbackCall, rollbackCall] } := by
    simp [DatabaseTool.execute_transaction, DatabaseTool.txLoop, h1, h2]
    rfl
  rw [hrun]
  refine ⟨rfl, rfl, rfl, ?_, ?_⟩ <;>
    simp [beginCall, stepCall, rollbackCall, List.filter]

/-- Witness for C2 amended at a concrete environment. -/
theorem execute_transaction_two_step_failure_witness :
    (((fun n => if n = 2 then CallOutcome.fail "duplicate key" else CallOutcome.ok [["row1"]].head!) : Nat → CallOutcome) 1 = CallOutcome.ok ["row1"]) ∧
    (DatabaseTool.execute_transaction
      (fun n => if n = 2 then CallOutcome.fail "duplicate key" else CallOutcome.ok [["row1"]].head!)
      [⟨some "Q1", none, []⟩, ⟨some "Q2", none, []⟩]).result.error =
      some ("Query 2 failed: " ++ "duplicate key") ∧
    ((DatabaseTool.execute_transaction
      (fun n => if n = 2 then CallOutcome.fail "duplicate key" else CallOutcome.ok [["row1"]].head!)
      [⟨some "Q1", none, []⟩, ⟨some "Q2", none, []⟩]).calls.filter
      (fun c => c.operation_type == "transaction_rollback")).length = 2 :=
  ⟨rfl,
    (execute_transaction_two_step_failure _ _ _ ["row1"] "duplicate key" rfl rfl).2.1,
    (execute_transaction_two_step_failure _ _ _ ["row1"] "duplicate key" rfl rfl).2.2.2.1⟩

/-! ## C4: the envelope invariant -/

/-- Length form of `prefixed_ne_empty` usable for chained appends. -/
theorem append_length_ne (a b : String) (ha : a.length ≠ 0) : (a ++ b).length ≠ 0 := by
  simp [String.length_append]
  omega

/-- Every error produced by one database attempt is non-empty as long as
transport fault messages are non-empty: the only other error source is the
internally raised `Database error: ...` message. -/
theorem attemptResult_error_ne_empty (env : Nat → DbAttemptOutcome)
    (hm : ∀ n m, env n = DbAttemptOutcome.transportError m → m ≠ "")
    (n : Nat) (m : String) (h : attemptResult (env n) = .error m) : m ≠ "" := by
  cases he : env n with
  | transportError msg =>
    rw [he] at h
    simp [attemptResult] at h
    exact h ▸ hm n msg he
  | httpResponse s t b =>
    rw [he] at h
    by_cases hs : s ≠ 200
    · simp [attemptResult, hs] at h
      exact h ▸ prefixed_ne_empty _ _ (append_length_ne _ _ (append_length_ne _ _ (by decide)))
    · simp [attemptResult, hs] at h

/-- The retry loop preserves the envelope invariant: its failure envelope
carries the last attempt error (non-empty under the transport hypothesis)
or the rendering of `None`, and its success envelope carries no error. -/
theorem executeLoop_envOk (max_retries : Nat) (env : Nat → DbAttemptOutcome)
    (query : String) (retry_on_error : Bool) (operation_type : String)
    (hm : ∀ n m, env n = DbAttemptOutcome.transportError m → m ≠ "") :
    ∀ (remaining attempts : Nat) (last_error : Option String) (sleeps : List Nat),
      (∀ m, last_error = some m → m ≠ "") →
      envOk (DatabaseTool.executeLoop max_retries env query retry_on_error
        operation_type remaining attempts last_error sleeps).result := by
  intro remaining
  induction remaining with
  | zero =>
    intro attempts last_error sleeps hl
    refine ⟨fun h => by simp [DatabaseTool.executeLoop] at h, fun _ => ?_⟩
    cases last_error with
    | none => exact ⟨"None", rfl, by decide⟩
    | some m => exact ⟨m, rfl, hl m rfl⟩
  | succ r ih =>
    intro attempts last_error sleeps hl
    rw [DatabaseTool.executeLoop]
    cases h : attemptResult (env attempts) with
    | ok d => exact ⟨fun _ => rfl, fun hf => by simp at hf⟩
    | error m =>
      refine ih (attempts + 1) (some m) _ (fun m2 hm2 => ?_)
      have hm2e : m2 = m := by injection hm2 with h2; exact h2.symm
      subst hm2e
      exact attemptResult_error_ne_empty env hm attempts m2 h

/-- The transaction loop preserves the envelope invariant unconditionally:
its failure error is always prefixed with `Query ... failed: `. -/
theorem txLoop_envOk (env : Nat → CallOutcome) (total : Nat) :
    ∀ (qs : List TxQuery) (i : Nat) (acc : List (List String)) (calls : List TxCall),
      envOk (DatabaseTool.txLoop env total qs i acc calls).result := by
  intro qs
  induction qs with
  | nil =>
    intro i acc calls
    exact ⟨fun _ => rfl, fun hf => by simp [DatabaseTool.txLoop] at hf⟩
  | cons q rest ih =>
    intro i acc calls
    rw [DatabaseTool.txLoop]
    cases h : env (i + 1) with
    | ok d => exact ih (i + 1) (d :: acc) _
    | fail e =>
      refine ⟨fun hs => by simp at hs, fun _ => ?_⟩
      exact ⟨"Query " ++ toString (i + 1) ++ " failed: " ++ e, rfl,
        prefixed_ne_empty _ _ (append_length_ne _ _ (append_length_ne _ _ (by decide)))⟩

/--
C4.  Every result envelope produced by the embedded operations satisfies
the invariant `success = false` iff the error field holds a non-empty
string (equivalently `success = true` implies the error is unset):
the database retry executor (assuming the transport renders fault messages
as non-empty strings; every internally constructed message is prefixed and
non-empty), the transaction coordinator, the progress-tracker operations,
and the MCP `database_execute_sql` built on `create_tool_result`.
-/
theorem envelope_invariant :
    (∀ (max_retries : Nat) (env : Nat → DbAttemptOutcome) (q : String)
       (rt : Bool) (ot : String),
       (∀ n m, env n = DbAttemptOutcome.transportError m → m ≠ "") →
       envOk (DatabaseTool.execute max_retries env q rt ot).result) ∧
    (∀ (env : Nat → CallOutcome) (queries : List TxQuery),
       envOk (DatabaseTool.execute_transaction env queries).result) ∧
    (∀ (now : String) (st : TrackerState) (c s : Option String),
       envOk (ProgressTrackerTool.add_todo now st c s).1) ∧
    (∀ (now : String) (st : TrackerState) (i : Nat) (s : Option String),
       envOk (ProgressTrackerTool.update_todo now st i s).1) ∧
    (∀ st : TrackerState, envOk (ProgressTrackerTool.get_progress st)) ∧
    (∀ (now : String) (u : StatUpdate) (s : WorkflowStats),
       envOk (ProgressTrackerTool.update_stats now u s).1) ∧
    (∀ (oc : DbAttemptOutcome) (q : String) (ps : List String),
       envOk (Mcp.database_execute_sql oc q ps)) := by
  refine ⟨?_, ?_, ?_, ?_, ?_, ?_, ?_⟩
  · intro mr env q rt ot hm
    exact executeLoop_envOk mr env q rt ot hm _ 0 none [] (by simp)
  · intro env queries
    exact txLoop_envOk env queries.length queries 0 [] [beginCall]
  · intro now st c s
    exact ⟨fun _ => rfl, fun hf => by simp [ProgressTrackerTool.add_todo] at hf⟩
  · intro now st i s
    cases hf : st.todos.find? (fun t => t.id = i) with
    | none =>
      refine ⟨fun hs => ?_, fun _ => ?_⟩
      · simp [ProgressTrackerTool.update_todo, hf] at hs
      · exact ⟨"Todo " ++ toString i ++ " not found",
          by simp [ProgressTrackerTool.update_todo, hf],
          prefixed_ne_empty _ _ (append_length_ne _ _ (by decide))⟩
    | some t =>
      refine ⟨fun _ => by simp [ProgressTrackerTool.update_todo, hf], fun hs => ?_⟩
      simp [ProgressTrackerTool.update_todo, hf] at hs
  · intro st
    exact ⟨fun _ => rfl, fun hf => by simp [ProgressTrackerTool.get_progress] at hf⟩
  · intro now u s
    exact ⟨fun _ => rfl, fun hf => by simp [ProgressTrackerTool.update_stats] at hf⟩
  · intro oc q ps
    cases oc with
    | transportError m =>
      exact ⟨fun hsu => by simp [Mcp.database_execute_sql, Mcp.create_tool_result] at hsu,
        fun _ => ⟨"SQL execution failed: " ++ m, rfl,
          prefixed_ne_empty _ _ (by decide)⟩⟩
    | httpResponse s t b =>
      by_cases hs : s ≠ 200
      · refine ⟨fun hsu => ?_, fun _ => ?_⟩
        · simp [Mcp.database_execute_sql, Mcp.create_tool_result, hs] at hsu
        · exact ⟨"Database error: " ++ toString s ++ " - " ++ t,
            by simp [Mcp.database_execute_sql, Mcp.create_tool_result, hs],
            prefixed_ne_empty _ _ (append_length_ne _ _ (append_length_ne _ _ (by decide)))⟩
      · refine ⟨fun _ => by simp [Mcp.database_execute_sql, Mcp.create_tool_result, hs],
          fun hsu => ?_⟩
        simp [Mcp.database_execute_sql, Mcp.create_tool_result, hs] at hsu

/-- Environment used by the C4 witness: a permanently refused transport. -/
def refusedEnv : Nat → DbAttemptOutcome :=
  fun _ => DbAttemptOutcome.transportError "connection refused"

/-- Witness for C4 at concrete inputs: a database run against a permanently
failing transport with non-empty fault messages, and a failing MCP call. -/
theorem envelope_invariant_witness :
    (∀ n m, refusedEnv n = DbAttemptOutcome.transportError m → m ≠ "") ∧
    envOk (DatabaseTool.execute 3 refusedEnv "SELECT 1" true "query").result ∧
    envOk (Mcp.database_execute_sql (DbAttemptOutcome.httpResponse 500 "ise" []) "SELECT 1" []) :=
  ⟨fun n m h => by
      simp only [refusedEnv, DbAttemptOutcome.transportError.injEq] at h
      simp [← h],
    envelope_invariant.1 3 refusedEnv "SELECT 1" true "query"
      (fun n m h => by
        simp only [refusedEnv, DbAttemptOutcome.transportError.injEq] at h
        simp [← h]),
    envelope_invariant.2.2.2.2.2.2 (DbAttemptOutcome.httpResponse 500 "ise" []) "SELECT 1" []⟩

/-! ## C5: update_stats and started_at -/

/--
C5 counterexample.  From a fresh tracker, a first `update_stats` call whose
partial update supplies only `orders_processed` leaves `started_at` at
`None`, contradicting the claim that after the first `update_stats` call the
counters always carry a non-null `started_at` regardless of which partial
fields the call supplied.
-/
theorem update_stats_counterexample :
    (ProgressTrackerTool.update_stats "2024-01-01T00:00:00"
      { started_at := none, orders_processed := some 1,
        images_processed := none, errors := none }
      initWorkflowStats).2.started_at = none := rfl

/--
C5 amended.  `update_stats` stamps `started_at` with the current time
exactly when the update mapping contains the `started_at` key with a falsy
(null or empty) value; when the key carries a non-empty value that value is
kept, and when the key is absent `started_at` is left unchanged — so a
first call that omits `started_at` leaves it unset.
-/
theorem update_stats_started_at (now : String) (u : StatUpdate) (s : WorkflowStats) :
    (u.started_at = none →
       (ProgressTrackerTool.update_stats now u s).2.started_at = s.started_at) ∧
    (∀ v, u.started_at = some v → pyFalsyStr v = true →
       (ProgressTrackerTool.update_stats now u s).2.started_at = some now) ∧
    (∀ v, u.started_at = some v → pyFalsyStr v = false →
       (ProgressTrackerTool.update_stats now u s).2.started_at = v) := by
  refine ⟨fun h => ?_, fun v hv hf => ?_, fun v hv hf => ?_⟩
  · simp [ProgressTrackerTool.update_stats, h]
  · simp [ProgressTrackerTool.update_stats, hv, hf]
  · simp [ProgressTrackerTool.update_stats, hv, hf]

/-- Witness for C5 amended: a call supplying `started_at: None` on a fresh
tracker stamps the clock value. -/
theorem update_stats_started_at_witness :
    pyFalsyStr none = true ∧
    (ProgressTrackerTool.update_stats "2024-01-01T00:00:00"
      { started_at := some none, orders_processed := none,
        images_processed := none, errors := none }
      initWorkflowStats).2.started_at = some "2024-01-01T00:00:00" :=
  ⟨rfl, (update_stats_started_at "2024-01-01T00:00:00" _ initWorkflowStats).2.1
    none rfl rfl⟩

/-! ## C7: derived metrics of ExecutionStats -/

/--
C7.  `update_completion` computes nothing while `ended_at` is unset (the
stats are returned unchanged), and once `ended_at` is set the success rate
becomes `(total_ops − errors) / total_ops × 100` for
`total_ops = orders_processed + images_processed > 0`, while it stays at its
initial value 0 when `total_ops = 0`.
-/
theorem update_completion_success_rate (s : ExecutionStats) (te : ℚ) :
    (s.ended_at = none → s.update_completion = s) ∧
    (s.ended_at = some te → s.success_rate = 0 →
      (0 < s.orders_processed + s.images_processed →
        s.update_completion.success_rate =
          ((s.orders_processed : ℚ) + (s.images_processed : ℚ) -
              (s.errors_encountered : ℚ)) /
            ((s.orders_processed : ℚ) + (s.images_processed : ℚ)) * 100) ∧
      (s.orders_processed + s.images_processed = 0 →
        s.update_completion.success_rate = 0)) := by
  constructor
  · intro h
    simp [ExecutionStats.update_completion, h]
  · intro h h0
    constructor
    · intro hpos
      simp [ExecutionStats.update_completion, h, hpos]
    · intro hz
      have ho : ¬ (s.orders_processed > 0) := by omega
      have hi : ¬ (s.images_processed > 0) := by omega
      simp [ExecutionStats.update_completion, h, hz, ho, hi, h0]

/-- Concrete stats used by the C7 witness: a run ended at time 10 having
processed 2 orders and 2 images with 1 error. -/
def witnessStats : ExecutionStats :=
  { ExecutionStats.fresh 0 with ended_at := some 10, orders_processed := 2, images_processed := 2, errors_encountered := 1 }

/-- Witness for C7 at concrete stats: 2 orders, 2 images, 1 error, ended at
time 10 gives success rate 75. -/
theorem update_completion_success_rate_witness :
    witnessStats.ended_at = some 10 ∧
    witnessStats.update_completion.success_rate =
      ((witnessStats.orders_processed : ℚ) + (witnessStats.images_processed : ℚ) -
          (witnessStats.errors_encountered : ℚ)) /
        ((witnessStats.orders_processed : ℚ) + (witnessStats.images_processed : ℚ)) * 100 :=
  ⟨rfl, ((update_completion_success_rate witnessStats 10).2 rfl rfl).1 (by decide)⟩

/-! ## C6: health aggregation -/

/--
C6.  For every finite list of probe success flags, the mapping marks a
probe healthy exactly when its envelope reports success, and the reduction
yields healthy when all probes are healthy, unhealthy when none of a
non-empty set is healthy, and degraded on any proper non-empty mix; the
agent and MCP implementations compute the same reduction.
-/
theorem health_aggregation (flags : List Bool) (ss : List String) :
    (∀ b : Bool, ORBITAgent.component_status b = "healthy" ↔ b = true) ∧
    ((∀ f ∈ flags, f = true) →
      ORBITAgent.overall_health (flags.map ORBITAgent.component_status) = "healthy") ∧
    (flags ≠ [] → (∀ f ∈ flags, f = false) →
      ORBITAgent.overall_health (flags.map ORBITAgent.component_status) = "unhealthy") ∧
    ((∃ f ∈ flags, f = true) → (∃ f ∈ flags, f = false) →
      ORBITAgent.overall_health (flags.map ORBITAgent.component_status) = "degraded") ∧
    (∀ b : Bool, ORBITAgent.component_status b = Mcp.component_status b) ∧
    ORBITAgent.overall_health ss = Mcp.overall_health ss := by
  refine ⟨?_, ?_, ?_, ?_, ?_, ?_⟩
  · intro b
    cases b <;> simp [ORBITAgent.component_status]
  · intro hall
    have : (flags.map ORBITAgent.component_status).all (fun s => s == "healthy") = true := by
      simp only [List.all_eq_true, List.mem_map]
      rintro s ⟨f, hf, rfl⟩
      simp [hall f hf, ORBITAgent.component_status]
    simp [ORBITAgent.overall_health, this]
  · intro hne hall
    obtain ⟨f0, hf0⟩ := List.exists_mem_of_ne_nil flags hne
    have hnone : (flags.map ORBITAgent.component_status).all (fun s => s == "healthy") = false := by
      simp only [List.all_eq_false, List.mem_map]
      exact ⟨_, ⟨f0, hf0, rfl⟩, by simp [hall f0 hf0, ORBITAgent.component_status]⟩
    have hany : (flags.map ORBITAgent.component_status).any (fun s => s == "healthy") = false := by
      simp only [List.any_eq_false, List.mem_map]
      rintro s ⟨f, hf, rfl⟩
      simp [hall f hf, ORBITAgent.component_status]
    simp [ORBITAgent.overall_health, hnone, hany]
  · rintro ⟨ft, hft, hft'⟩ ⟨ff, hff, hff'⟩
    have hnone : (flags.map ORBITAgent.component_status).all (fun s => s == "healthy") = false := by
      simp only [List.all_eq_false, List.mem_map]
      exact ⟨_, ⟨ff, hff, rfl⟩, by simp [hff', ORBITAgent.component_status]⟩
    have hany : (flags.map ORBITAgent.component_status).any (fun s => s == "healthy") = true := by
      simp only [List.any_eq_true, List.mem_map]
      exact ⟨_, ⟨ft, hft, rfl⟩, by simp [hft', ORBITAgent.component_status]⟩
    simp [ORBITAgent.overall_health, hnone, hany]
  · intro b
    rfl
  · rfl

/-- Witness for C6: a healthy database probe with an unhealthy storage
probe reduces to degraded, all healthy to healthy, and all unhealthy to
unhealthy, identically in both implementations. -/
theorem health_aggregation_witness :
    ORBITAgent.overall_health ([true, false].map ORBITAgent.component_status) = "degraded" ∧
    ORBITAgent.overall_health ([true, true].map ORBITAgent.component_status) = "healthy" ∧
    ORBITAgent.overall_health ([false, false].map ORBITAgent.component_status) = "unhealthy" ∧
    ORBITAgent.overall_health ["healthy", "unhealthy"] = Mcp.overall_health ["healthy", "unhealthy"] :=
  ⟨(health_aggregation [true, false] []).2.2.2.1
      ⟨true, by simp, rfl⟩ ⟨false, by simp, rfl⟩,
    (health_aggregation [true, true] []).2.1 (by simp),
    (health_aggregation [false, false] []).2.2.1 (by simp) (by simp),
    (health_aggregation [] ["healthy", "unhealthy"]).2.2.2.2.2⟩

/-! ## C8: percent complete -/

/-- Evaluation rule for `roundTo2` below the half-way point of the last
kept digit. -/
theorem roundTo2_eq_of_lt_half (x : ℚ) (n : ℤ) (hn : ⌊x * 100⌋ = n)
    (hlt : x * 100 - n < 1 / 2) :
    ProgressTrackerTool.roundTo2 x = (n : ℚ) / 100 := by
  simp only [ProgressTrackerTool.roundTo2, ProgressTrackerTool.roundHalfEven, hn]
  rw [if_pos (by linarith)]

/-- Ledger with 3 todos of which exactly 1 is completed. -/
def ledgerThree : TrackerState :=
  { todos := [⟨1, some "a", some "completed", "T", "T"⟩,
              ⟨2, some "b", some "pending", "T", "T"⟩,
              ⟨3, some "c", some "pending", "T", "T"⟩],
    next_id := 4, workflow_stats := initWorkflowStats }

/-- Ledger with 4 todos of which exactly 2 are completed. -/
def ledgerFour : TrackerState :=
  { todos := [⟨1, some "a", some "completed", "T", "T"⟩,
              ⟨2, some "b", some "completed", "T", "T"⟩,
              ⟨3, some "c", some "pending", "T", "T"⟩,
              ⟨4, some "d", some "in_progress", "T", "T"⟩],
    next_id := 5, workflow_stats := initWorkflowStats }

/--
C8 counterexample.  A ledger with 3 todos of which 1 is completed reports
`percent_complete = 33.33` (the code rounds to two decimal places on
line 693), which differs from `completed/total × 100 = 100/3`; the claim
that `percent_complete` always equals the exact ratio is therefore false.
-/
theorem get_progress_rounding_counterexample :
    ((ProgressTrackerTool.get_progress ledgerThree).data.map
      (fun p => p.percent_complete)) = some (3333 / 100) ∧
    (3333 / 100 : ℚ) ≠
      (ProgressTrackerTool.statusCount ledgerThree "completed" : ℚ) /
        (ledgerThree.todos.length : ℚ) * 100 := by
  have hsc : ProgressTrackerTool.statusCount ledgerThree "completed" = 1 := by decide
  have hlen : ledgerThree.todos.length = 3 := by decide
  constructor
  · simp only [ProgressTrackerTool.get_progress, hsc, hlen]
    norm_num
    rw [roundTo2_eq_of_lt_half _ 3333 (by norm_num [Int.floor_eq_iff])
      (by norm_num)]
    norm_num
  · rw [hsc, hlen]
    norm_num

/--
C8 amended.  For every ledger state, `get_progress` reports
`percent_complete` equal to `completed/total × 100` rounded to two decimal
places (so 4 todos of which 2 are completed give exactly 50), and 0 when
the total is 0.
-/
theorem get_progress_percent_complete (st : TrackerState) :
    (st.todos.length ≠ 0 →
      ((ProgressTrackerTool.get_progress st).data.map (fun p => p.percent_complete)) =
        some (ProgressTrackerTool.roundTo2
          ((ProgressTrackerTool.statusCount st "completed" : ℚ) / (st.todos.length : ℚ) * 100))) ∧
    (st.todos.length = 0 →
      ((ProgressTrackerTool.get_progress st).data.map (fun p => p.percent_complete)) = some 0) := by
  constructor
  · intro h
    simp [ProgressTrackerTool.get_progress, Nat.pos_of_ne_zero h]
  · intro h
    simp [ProgressTrackerTool.get_progress, h]

/-- Witness for C8 amended: 4 todos of which 2 are completed give
`percent_complete = 50`. -/
theorem get_progress_percent_complete_witness :
    ledgerFour.todos.length ≠ 0 ∧
    ((ProgressTrackerTool.get_progress ledgerFour).data.map
      (fun p => p.percent_complete)) = some 50 := by
  refine ⟨by decide, ?_⟩
  rw [(get_progress_percent_complete ledgerFour).1 (by decide)]
  have hsc : ProgressTrackerTool.statusCount ledgerFour "completed" = 2 := by decide
  have hlen : ledgerFour.todos.length = 4 := by decide
  rw [hsc, hlen]
  rw [roundTo2_eq_of_lt_half _ 5000 (by norm_num [Int.floor_eq_iff]) (by norm_num)]
  norm_num

/-! ## C9: no pending work short-circuits the run -/

/--
C9.  When the health check is not unhealthy and the workflow context reports
zero pending orders, `execute_workflow` returns a success result carrying
the no-work message and never invokes the phase engine (the agent run). -/
theorem execute_workflow_no_work (env : WorkflowEnv)
    (h1 : env.health_overall ≠ "unhealthy") (h2 : env.pending_count = 0) :
    ORBITAgent.execute_workflow env =
      { success := true, message := some "No pending orders to process",
        error := none, agent_invoked := false } := by
  simp [ORBITAgent.execute_workflow, h1, h2]

/-- Witness for C9 at a concrete healthy environment with no pending
orders. -/
theorem execute_workflow_no_work_witness :
    ("healthy" ≠ "unhealthy") ∧
    ORBITAgent.execute_workflow ⟨"healthy", 0, .ok "r"⟩ =
      { success := true, message := some "No pending orders to process",
        error := none, agent_invoked := false } :=
  ⟨by decide, execute_workflow_no_work ⟨"healthy", 0, .ok "r"⟩ (by decide) rfl⟩

/-! ## C10: update_todo on a missing id -/

/--
C10.  For every tracker state and every todo id not present in the list,
`update_todo` returns a failure envelope whose error names the missing id,
and leaves the whole tracker state (todo list, next id, workflow counters)
unchanged. -/
theorem update_todo_missing_id (now : String) (st : TrackerState)
    (todo_id : Nat) (status : Option String)
    (h : ∀ t ∈ st.todos, t.id ≠ todo_id) :
    (ProgressTrackerTool.update_todo now st todo_id status).1.success = false ∧
    (ProgressTrackerTool.update_todo now st todo_id status).1.error =
      some ("Todo " ++ toString todo_id ++ " not found") ∧
    (ProgressTrackerTool.update_todo now st todo_id status).2 = st := by
  have hf : st.todos.find? (fun t => t.id = todo_id) = none := by
    rw [List.find?_eq_none]
    intro t ht
    simpa using h t ht
  simp [ProgressTrackerTool.update_todo, hf]

/-- Witness for C10: updating id 2 in a tracker holding only id 1 fails
with the naming error and keeps the state. -/
theorem update_todo_missing_id_witness :
    (∀ t ∈ ({ todos := [⟨1, some "task", some "pending", "T", "T"⟩],
              next_id := 2, workflow_stats := initWorkflowStats } : TrackerState).todos,
       t.id ≠ 2) ∧
    (ProgressTrackerTool.update_todo "T1"
      { todos := [⟨1, some "task", some "pending", "T", "T"⟩],
        next_id := 2, workflow_stats := initWorkflowStats } 2 (some "completed")).1.error =
      some ("Todo " ++ toString 2 ++ " not found") ∧
    (ProgressTrackerTool.update_todo "T1"
      { todos := [⟨1, some "task", some "pending", "T", "T"⟩],
        next_id := 2, workflow_stats := initWorkflowStats } 2 (some "completed")).2 =
      { todos := [⟨1, some "task", some "pending", "T", "T"⟩],
        next_id := 2, workflow_stats := initWorkflowStats } :=
  ⟨by decide,
    (update_todo_missing_id "T1" _ 2 (some "completed") (by decide)).2.1,
    (update_todo_missing_id "T1" _ 2 (some "completed") (by decide)).2.2⟩

end Orbit
